import Mathlib

/-!
Verification of the ElectroMart payment service (`src/routes/paymentRoutes.js`,
mounted in `services/payment-service/src/index.js`) and of the order/payment
consistency orchestration described in the design document.

The payment route handlers are embedded as pure state-passing functions over an
explicit model of the Redis cache and the Stripe collaborator.  Each handler is
translated clause-for-clause from the Express handler: validation first, then
cache lookup / Stripe retrieve, ownership check, status guard, side effects.
Time is an explicit `now : Nat` parameter; `setEx key ttl value` stores an
absolute expiry `now + ttl`, and `get` returns the record only before expiry,
which matches Redis TTL semantics.
-/

namespace ElectroMart

/-- A JSON body field as seen by the `express-validator` checks: either an
integer value or something that is not an integer (string, float, missing). -/
inductive JsonVal where
  | jint (n : Int)
  | jother
deriving DecidableEq, Repr

/-- Validator check `body(field).isInt({ min \x7d)`: true exactly for integer values `≥ min`. -/
def isIntMin (v : JsonVal) (lo : Int) : Bool :=
  match v with
  | .jint n => lo ≤ n
  | .jother => false

/-- Extract the integer of a JSON value (only used after `isIntMin` passed). -/
def jsonInt (v : JsonVal) : Int :=
  match v with
  | .jint n => n
  | .jother => 0

/-! ### The Redis cache

The service stores three kinds of records, under the key prefixes
`payment_intent:{orderId}`, `payment:{paymentIntentId}` and `refund:{refundId}`.
The prefixes make the three families disjoint, so they are modelled as three
association lists.  Every entry carries the absolute expiry time given to
`setEx`. -/

/-- Redis `setEx`: store `v` under `k` with absolute expiry `exp`, replacing any
previous entry for `k`. -/
def cacheSet {α : Type} (c : List (String × α × Nat)) (k : String) (v : α)
    (exp : Nat) : List (String × α × Nat) :=
  (k, v, exp) :: c.filter (fun e => e.1 ≠ k)

/-- Redis `get`: return the record stored under `k`, provided it has not expired. -/
def cacheGet {α : Type} (c : List (String × α × Nat)) (k : String)
    (now : Nat) : Option α :=
  match c.find? (fun e => e.1 = k) with
  | some (_, v, exp) => if now < exp then some v else none
  | none => none

/-- The JSON blob cached under `payment_intent:{orderId}` by
`create-payment-intent`, and updated in place by `confirm-payment`. -/
structure PaymentIntentRecord where
  paymentIntentId : String
  clientSecret : String
  status : String
  amount : Int
  currency : String
  orderId : String
  userId : Nat
  createdAt : Nat
  confirmedAt : Option Nat := none
deriving DecidableEq, Repr

/-- The JSON blob cached under `payment:{paymentIntentId}` once a payment
succeeds. -/
structure PaymentRecord where
  paymentIntentId : String
  orderId : String
  userId : Nat
  amount : Int
  currency : String
  status : String
  confirmedAt : Nat
deriving DecidableEq, Repr

/-- The JSON blob cached under `refund:{refundId}` by the refund handler. -/
structure RefundRecord where
  refundId : String
  paymentIntentId : String
  orderId : String
  userId : Nat
  amount : Int
  currency : String
  status : String
  reason : Option String
  createdAt : Nat
deriving DecidableEq, Repr

/-! ### The Stripe collaborator

The external payment-authorization collaborator is modelled at its boundary: a
table of payment intents keyed by id, plus counters/logs of the side-effecting
calls (`paymentIntents.create`, `paymentIntents.confirm`, `refunds.create`).
The statuses the collaborator assigns — to a freshly created intent, to a
confirmed intent, and to a refund — are oracle fields of the state, so theorems
quantify over every possible collaborator answer. -/

structure StripeIntent where
  id : String
  clientSecret : String
  status : String
  amount : Int
  currency : String
  metaOrderId : String
  metaUserId : String
  description : String
  created : Nat
deriving DecidableEq, Repr

structure StripeRefund where
  id : String
  paymentIntent : String
  amount : Int
  currency : String
  status : String
  reason : Option String
deriving DecidableEq, Repr

structure StripeState where
  intents : List (String × StripeIntent)
  refunds : List StripeRefund
  createCalls : Nat
  confirmCalls : List String
  refundCalls : Nat
  nextId : Nat
  createStatus : String
  confirmStatus : String
  refundStatus : String
deriving DecidableEq, Repr

/-- Call `stripe.paymentIntents.retrieve(id)`. -/
def stripeRetrieve (s : StripeState) (id : String) : Option StripeIntent :=
  match s.intents.find? (fun e => e.1 = id) with
  | some (_, pi) => some pi
  | none => none

/-- Default description used by the handler when the request carries none. -/
def defaultDescription (orderId : String) : String :=
  "Payment for order " ++ orderId

/-- Call `stripe.paymentIntents.create`: mints a fresh intent carrying the
order/user metadata, logs the call. -/
def stripeCreate (s : StripeState) (amount : Int) (currency orderId : String)
    (userId : Nat) (description : Option String) (now : Nat) :
    StripeIntent × StripeState :=
  let pid := "pi_" ++ toString s.nextId
  let pi : StripeIntent :=
    { id := pid
      clientSecret := pid ++ "_secret"
      status := s.createStatus
      amount := amount
      currency := currency
      metaOrderId := orderId
      metaUserId := toString userId
      description := description.getD (defaultDescription orderId)
      created := now }
  (pi, { s with
          intents := (pid, pi) :: s.intents
          createCalls := s.createCalls + 1
          nextId := s.nextId + 1 })

/-- Call `stripe.paymentIntents.confirm(id)`: sets the intent's status to the
collaborator's confirmation answer, logs the call. -/
def stripeConfirm (s : StripeState) (id : String) :
    Option StripeIntent × StripeState :=
  match stripeRetrieve s id with
  | none => (none, { s with confirmCalls := id :: s.confirmCalls })
  | some pi =>
      let pi2 := { pi with status := s.confirmStatus }
      (some pi2,
        { s with
            intents := (id, pi2) :: s.intents.filter (fun e => e.1 ≠ id)
            confirmCalls := id :: s.confirmCalls })

/-- Call `stripe.refunds.create`: mints a refund for the intent, logs the
call.  When no amount is passed Stripe refunds the full intent amount. -/
def stripeRefundCreate (s : StripeState) (pi : StripeIntent)
    (amount : Option Int) (reason : Option String) :
    StripeRefund × StripeState :=
  let rf : StripeRefund :=
    { id := "re_" ++ toString s.nextId
      paymentIntent := pi.id
      amount := amount.getD pi.amount
      currency := pi.currency
      status := s.refundStatus
      reason := reason }
  (rf, { s with
          refunds := rf :: s.refunds
          refundCalls := s.refundCalls + 1
          nextId := s.nextId + 1 })

/-! ### Service state: Stripe plus the three cache families. -/

structure ServiceState where
  stripe : StripeState
  piCache : List (String × PaymentIntentRecord × Nat)
  payCache : List (String × PaymentRecord × Nat)
  refundCache : List (String × RefundRecord × Nat)
deriving DecidableEq, Repr

/-- TTL passed to `setEx` for `payment_intent:{orderId}` records (source
comment: `3600, // 1 hour expiry`). -/
def paymentIntentTtl : Nat := 3600

/-- TTL passed to `setEx` for `payment:{paymentIntentId}` records (source
comment: `86400, // 24 hours`). -/
def paymentRecordTtl : Nat := 86400

/-- TTL passed to `setEx` for `refund:{refundId}` records (source comment:
`86400, // 24 hours`). -/
def refundRecordTtl : Nat := 86400

/-! ### POST /api/payments/create-payment-intent -/

/-- Request body of `create-payment-intent`. -/
structure CreateIntentReq where
  amount : JsonVal
  currency : String
  orderId : String
  paymentMethodId : Option String := none
  description : Option String := none
deriving DecidableEq, Repr

/-- The three `express-validator` checks on `create-payment-intent`:
`amount` is an integer `≥ 50`, `currency ∈ {usd, eur, gbp}`,
`orderId` non-empty. -/
def validateCreateIntent (r : CreateIntentReq) : Bool :=
  isIntMin r.amount 50 &&
  (r.currency == "usd" || r.currency == "eur" || r.currency == "gbp") &&
  r.orderId != ""

/-- Responses of `create-payment-intent`: a 400 with the validator errors, or
a 200 `{success, paymentIntentId, clientSecret, status}` (the same shape on
the cache-hit and the fresh-create paths). -/
inductive CreateIntentRes where
  | validationError
  | ok (paymentIntentId clientSecret status : String)
deriving DecidableEq, Repr

/-- The `create-payment-intent` handler.  Mirrors the source: validation,
then the `payment_intent:{orderId}` cache lookup (returning the stored result
verbatim on a hit), otherwise a Stripe create followed by a `setEx` with a
3600-second TTL. -/
def createPaymentIntent (st : ServiceState) (userId now : Nat)
    (req : CreateIntentReq) : CreateIntentRes × ServiceState :=
  if !validateCreateIntent req then (.validationError, st)
  else
    match cacheGet st.piCache req.orderId now with
    | some pd => (.ok pd.paymentIntentId pd.clientSecret pd.status, st)
    | none =>
        let amt := jsonInt req.amount
        let (pi, stripe2) :=
          stripeCreate st.stripe amt req.currency req.orderId userId
            req.description now
        let pd : PaymentIntentRecord :=
          { paymentIntentId := pi.id
            clientSecret := pi.clientSecret
            status := pi.status
            amount := amt
            currency := req.currency
            orderId := req.orderId
            userId := userId
            createdAt := now }
        (.ok pi.id pi.clientSecret pi.status,
          { st with
              stripe := stripe2
              piCache := cacheSet st.piCache req.orderId pd
                (now + paymentIntentTtl) })

/-! ### POST /api/payments/confirm-payment -/

/-- Message of the early-return 200 of `confirm-payment`. -/
def msgAlreadyConfirmed : String := "Payment already confirmed"

/-- Message of the 200 after a succeeded confirm call. -/
def msgConfirmedOk : String := "Payment confirmed successfully"

/-- Message of the 200 after a confirm call that did not succeed. -/
def msgProcessing : String := "Payment processing"

/-- Responses of `confirm-payment`.  The two 200 responses are distinguished
by their message: `"Payment already confirmed"` on the early return,
`"Payment confirmed successfully"` / `"Payment processing"` after a confirm
call. -/
inductive ConfirmRes where
  | validationError
  | notFound
  | forbidden
  | ok (status message : String)
deriving DecidableEq, Repr

/-- The `confirm-payment` handler: validation, Stripe retrieve, ownership
check against `metadata.userId`, early return when the intent is already
`succeeded`, otherwise a Stripe confirm; on a succeeded confirmation the
cached `payment_intent:{orderId}` record is updated in place (same 3600 TTL)
and a `payment:{id}` record is written with an 86400-second TTL. -/
def confirmPayment (st : ServiceState) (userId now : Nat)
    (paymentIntentId : String) : ConfirmRes × ServiceState :=
  if paymentIntentId == "" then (.validationError, st)
  else
    match stripeRetrieve st.stripe paymentIntentId with
    | none => (.notFound, st)
    | some pi =>
        if pi.metaUserId != toString userId then (.forbidden, st)
        else if pi.status == "succeeded" then
          (.ok pi.status msgAlreadyConfirmed, st)
        else
          match stripeConfirm st.stripe paymentIntentId with
          | (none, stripe2) => (.notFound, { st with stripe := stripe2 })
          | (some cp, stripe2) =>
              let st2 : ServiceState := { st with stripe := stripe2 }
              if cp.status == "succeeded" then
                let st3 : ServiceState :=
                  match cacheGet st2.piCache cp.metaOrderId now with
                  | some pd =>
                      { st2 with
                          piCache := cacheSet st2.piCache cp.metaOrderId
                            { pd with
                                status := cp.status
                                confirmedAt := some now }
                            (now + paymentIntentTtl) }
                  | none => st2
                let payRec : PaymentRecord :=
                  { paymentIntentId := cp.id
                    orderId := cp.metaOrderId
                    userId := userId
                    amount := cp.amount
                    currency := cp.currency
                    status := cp.status
                    confirmedAt := now }
                (.ok cp.status msgConfirmedOk,
                  { st3 with
                      payCache := cacheSet st3.payCache cp.id payRec
                        (now + paymentRecordTtl) })
              else
                (.ok cp.status msgProcessing, st2)

/-! ### GET /api/payments/payment-status/:paymentIntentId -/

/-- Responses of `payment-status`: the cached `payment:{id}` record, or the
payment data rebuilt from the Stripe intent, or an error. -/
inductive StatusRes where
  | okCached (payment : PaymentRecord)
  | okStripe (paymentIntentId orderId : String) (userId : Nat) (amount : Int)
      (currency status : String) (created : Nat)
  | notFound
  | forbidden
deriving DecidableEq, Repr

/-- The Stripe-retrieve branch of `payment-status`, reached when the cache
misses or the cached record belongs to another user. -/
def paymentStatusStripe (st : ServiceState) (userId : Nat)
    (paymentIntentId : String) : StatusRes × ServiceState :=
  match stripeRetrieve st.stripe paymentIntentId with
  | none => (.notFound, st)
  | some pi =>
      if pi.metaUserId != toString userId then (.forbidden, st)
      else
        (.okStripe pi.id pi.metaOrderId userId pi.amount pi.currency pi.status
          pi.created, st)

/-- The `payment-status` handler: `payment:{id}` cache first (returned only
when the cached `userId` matches the caller), then fall through to Stripe. -/
def paymentStatus (st : ServiceState) (userId now : Nat)
    (paymentIntentId : String) : StatusRes × ServiceState :=
  match cacheGet st.payCache paymentIntentId now with
  | some pd =>
      if pd.userId == userId then (.okCached pd, st)
      else paymentStatusStripe st userId paymentIntentId
  | none => paymentStatusStripe st userId paymentIntentId

/-! ### POST /api/payments/refund -/

/-- Request body of `refund`. -/
structure RefundReq where
  paymentIntentId : String
  amount : Option JsonVal := none
  reason : Option String := none
deriving DecidableEq, Repr

/-- The `express-validator` checks on `refund`: non-empty id, optional
positive integer amount, optional reason from the allowed set. -/
def validateRefund (r : RefundReq) : Bool :=
  r.paymentIntentId != "" &&
  (match r.amount with
   | none => true
   | some v => isIntMin v 1) &&
  (match r.reason with
   | none => true
   | some s => s == "duplicate" || s == "fraudulent" ||
       s == "requested_by_customer")

/-- Responses of `refund`.  `notEligible` is the 400
`'Payment is not eligible for refund'`; `validationError` is the 400 carrying
the validator errors. -/
inductive RefundRes where
  | validationError
  | notFound
  | forbidden
  | notEligible
  | ok (refundId status : String)
deriving DecidableEq, Repr

/-- The `refund` handler: validation, Stripe retrieve, ownership check,
eligibility guard (`status === 'succeeded'`), then a Stripe refund and a
`refund:{id}` cache write with an 86400-second TTL. -/
def refund (st : ServiceState) (userId now : Nat) (req : RefundReq) :
    RefundRes × ServiceState :=
  if !validateRefund req then (.validationError, st)
  else
    match stripeRetrieve st.stripe req.paymentIntentId with
    | none => (.notFound, st)
    | some pi =>
        if pi.metaUserId != toString userId then (.forbidden, st)
        else if pi.status != "succeeded" then (.notEligible, st)
        else
          let (rf, stripe2) :=
            stripeRefundCreate st.stripe pi (req.amount.map jsonInt) req.reason
          let rfRec : RefundRecord :=
            { refundId := rf.id
              paymentIntentId := req.paymentIntentId
              orderId := pi.metaOrderId
              userId := userId
              amount := rf.amount
              currency := rf.currency
              status := rf.status
              reason := rf.reason
              createdAt := now }
          (.ok rf.id rf.status,
            { st with
                stripe := stripe2
                refundCache := cacheSet st.refundCache rf.id rfRec
                  (now + refundRecordTtl) })

/-! ### The Order State Machine

Modelled from the spec: the order service's state machine and its
`transition(orderId, event, expectedVersion)` contract are not among the
source files (only the `PaymentStatus` enum and an address model of the Java
order service are present), so the machine is taken from design-document
§4.1: states `CREATED → RESERVED → AUTHORIZING → AUTHORIZED → COMPLETED`
with failure branches `RESERVED|AUTHORIZING → CANCELLING → CANCELLED` and
`AUTHORIZING → FAILED`; `ConflictError` on version mismatch,
`IllegalTransitionError` on an event invalid from the current state, and on
success a persisted new state, version + 1, and the updated order plus a
domain event. -/

inductive OrderStatus where
  | created
  | reserved
  | authorizing
  | authorized
  | completed
  | cancelling
  | cancelled
  | failed
deriving DecidableEq, Repr

/-- A status from which no further transition is permitted. -/
def isTerminal (s : OrderStatus) : Bool :=
  match s with
  | .completed | .cancelled | .failed => true
  | _ => false

/-- Events driving the order state machine. -/
inductive OrderEvent where
  | reserveStockOk
  | startAuthorization
  | authorizationOk
  | completeOrder
  | startCancellation
  | cancellationOk
  | authorizationFailed
deriving DecidableEq, Repr

/-- Modelled from the spec: the closed transition table of §4.1, with no
implicit fallthrough — every pair outside the table is invalid. -/
def nextStatus (s : OrderStatus) (e : OrderEvent) : Option OrderStatus :=
  match s, e with
  | .created, .reserveStockOk => some .reserved
  | .reserved, .startAuthorization => some .authorizing
  | .authorizing, .authorizationOk => some .authorized
  | .authorized, .completeOrder => some .completed
  | .reserved, .startCancellation => some .cancelling
  | .authorizing, .startCancellation => some .cancelling
  | .cancelling, .cancellationOk => some .cancelled
  | .authorizing, .authorizationFailed => some .failed
  | _, _ => none

structure Order where
  orderId : String
  userId : Nat
  total : Int
  status : OrderStatus
  version : Nat
deriving DecidableEq, Repr

/-- Outcome of `transition`: the two contract errors, a missing order, or
success carrying the updated order and the domain event to publish. -/
inductive TransitionOutcome where
  | conflictError
  | illegalTransitionError
  | orderNotFound
  | success (updated : Order) (domainEvent : OrderEvent)
deriving DecidableEq, Repr

/-- Replace the order stored under `orderId`. -/
def storeSet (store : List (String × Order)) (orderId : String) (o : Order) :
    List (String × Order) :=
  (orderId, o) :: store.filter (fun e => e.1 ≠ orderId)

/-- Look up the order stored under `orderId`. -/
def storeGet (store : List (String × Order)) (orderId : String) :
    Option Order :=
  match store.find? (fun e => e.1 = orderId) with
  | some (_, o) => some o
  | none => none

/-- Modelled from the spec: `transition(orderId, event, expectedVersion)` of
§4.1 — `ConflictError` if the persisted version differs from
`expectedVersion`, `IllegalTransitionError` if the event is not valid from
the current state, otherwise persist the new state, increment the version,
and return the updated order plus the domain event. -/
def transition (store : List (String × Order)) (orderId : String)
    (event : OrderEvent) (expectedVersion : Nat) :
    TransitionOutcome × List (String × Order) :=
  match storeGet store orderId with
  | none => (.orderNotFound, store)
  | some o =>
      if o.version ≠ expectedVersion then (.conflictError, store)
      else
        match nextStatus o.status event with
        | none => (.illegalTransitionError, store)
        | some s2 =>
            let o2 := { o with status := s2, version := o.version + 1 }
            (.success o2 event, storeSet store orderId o2)

/-! ### Webhook Ingress

Modelled from the spec: the webhook route module mounted at
`app.use('/api/webhooks', webhookRoutes)` is not among the source files, so
`handleEvent(externalReference, eventType, payload, eventId)` is taken from
design-document §4.3: look up the PaymentAttempt by `externalReference`
(`UnknownAttemptError` and no state change when absent), deduplicate by
`eventId` against the ledger (a previously applied `eventId` is a no-op),
no-op when the attempt is already terminal, and otherwise apply the mapped
state-machine transition and record the `eventId`. -/

inductive AttemptStatus where
  | pendingAttempt
  | authorizedAttempt
  | declinedAttempt
deriving DecidableEq, Repr

/-- Terminal PaymentAttempt statuses are final and immutable. -/
def attemptTerminal (s : AttemptStatus) : Bool :=
  match s with
  | .authorizedAttempt | .declinedAttempt => true
  | .pendingAttempt => false

structure PaymentAttempt where
  externalReference : String
  orderId : String
  idempotencyKey : String
  status : AttemptStatus
deriving DecidableEq, Repr

/-- Modelled from the spec: valid webhook event types map to the same
state-machine events as the synchronous path, and fix the attempt's new
status. -/
def mapEventType (eventType : String) :
    Option (OrderEvent × AttemptStatus) :=
  if eventType == "payment.authorized" then
    some (.authorizationOk, .authorizedAttempt)
  else if eventType == "payment.declined" then
    some (.authorizationFailed, .declinedAttempt)
  else none

structure WebhookState where
  appliedEventIds : List String
  attempts : List (String × PaymentAttempt)
  orders : List (String × Order)
deriving DecidableEq, Repr

inductive WebhookOutcome where
  | unknownAttempt
  | duplicateEvent
  | attemptAlreadyTerminal
  | unrecognizedEventType
  | applied (domainEvent : OrderEvent)
deriving DecidableEq, Repr

/-- Replace the attempt stored under `ref`. -/
def attemptsSet (attempts : List (String × PaymentAttempt)) (ref : String)
    (a : PaymentAttempt) : List (String × PaymentAttempt) :=
  (ref, a) :: attempts.filter (fun e => e.1 ≠ ref)

/-- Look up the attempt stored under `ref`. -/
def attemptsGet (attempts : List (String × PaymentAttempt)) (ref : String) :
    Option PaymentAttempt :=
  match attempts.find? (fun e => e.1 = ref) with
  | some (_, a) => some a
  | none => none

/-- Modelled from the spec: the §4.3 webhook handler. -/
def handleEvent (st : WebhookState) (externalReference eventType : String)
    (eventId : String) : WebhookOutcome × WebhookState :=
  match attemptsGet st.attempts externalReference with
  | none => (.unknownAttempt, st)
  | some att =>
      if st.appliedEventIds.contains eventId then (.duplicateEvent, st)
      else if attemptTerminal att.status then (.attemptAlreadyTerminal, st)
      else
        match mapEventType eventType with
        | none => (.unrecognizedEventType, st)
        | some (ev, newStatus) =>
            let attempts2 := attemptsSet st.attempts externalReference
              { att with status := newStatus }
            let orders2 :=
              match storeGet st.orders att.orderId with
              | none => st.orders
              | some o => (transition st.orders att.orderId ev o.version).2
            (.applied ev,
              { appliedEventIds := eventId :: st.appliedEventIds
                attempts := attempts2
                orders := orders2 })

/-- Iterate the state effect of redelivering the same webhook `n` times. -/
def replayEvent (externalReference eventType eventId : String) (n : Nat)
    (st : WebhookState) : WebhookState :=
  match n with
  | 0 => st
  | n + 1 =>
      replayEvent externalReference eventType eventId n
        (handleEvent st externalReference eventType eventId).2

/-! ### Concrete fixtures

Closed states and requests used by the witnesses and the counterexample.
String literals are bound to names here so every later application site passes
a name. -/

def stripeEmpty : StripeState :=
  { intents := [], refunds := [], createCalls := 0, confirmCalls := [],
    refundCalls := 0, nextId := 0,
    createStatus := "requires_payment_method",
    confirmStatus := "succeeded",
    refundStatus := "succeeded" }

def ordKey1 : String := "order1"

def fixtureRecord : PaymentIntentRecord :=
  { paymentIntentId := "pi_7", clientSecret := "pi_7_secret",
    status := "requires_payment_method", amount := 5000, currency := "usd",
    orderId := ordKey1, userId := 42, createdAt := 100 }

def fixtureCreateReq : CreateIntentReq :=
  { amount := .jint 5000, currency := "usd", orderId := ordKey1 }

def fixtureStateCached : ServiceState :=
  { stripe := stripeEmpty,
    piCache := [(ordKey1, fixtureRecord, 4000)],
    payCache := [], refundCache := [] }

def pidSucceeded : String := "pi_9"

def intentSucceeded : StripeIntent :=
  { id := pidSucceeded, clientSecret := "pi_9_secret", status := "succeeded",
    amount := 5000, currency := "usd", metaOrderId := "order9",
    metaUserId := "7", description := "d", created := 50 }

def stateWithSucceeded : ServiceState :=
  { stripe := { stripeEmpty with intents := [(pidSucceeded, intentSucceeded)] },
    piCache := [], payCache := [], refundCache := [] }

def pidPending : String := "pi_8"

def ordKey8 : String := "order8"

def intentPending : StripeIntent :=
  { id := pidPending, clientSecret := "pi_8_secret",
    status := "requires_confirmation", amount := 2000, currency := "usd",
    metaOrderId := ordKey8, metaUserId := "7", description := "d",
    created := 60 }

def record8 : PaymentIntentRecord :=
  { paymentIntentId := pidPending, clientSecret := "pi_8_secret",
    status := "requires_confirmation", amount := 2000, currency := "usd",
    orderId := ordKey8, userId := 7, createdAt := 80 }

def stateWithPending : ServiceState :=
  { stripe := { stripeEmpty with intents := [(pidPending, intentPending)] },
    piCache := [(ordKey8, record8, 5000)], payCache := [], refundCache := [] }

def refundReqPending : RefundReq := { paymentIntentId := pidPending }

def refundReqSucceeded : RefundReq := { paymentIntentId := pidSucceeded }

def invalidCreateReq : CreateIntentReq :=
  { amount := .jint 10, currency := "usd", orderId := ordKey1 }

def invalidRefundReq : RefundReq := { paymentIntentId := "" }

/-- Counterexample run, step 0: empty caches, empty Stripe table. -/
def cexState0 : ServiceState :=
  { stripe := stripeEmpty, piCache := [], payCache := [], refundCache := [] }

/-- Counterexample run, step 1: after `create-payment-intent` at time 100. -/
def cexState1 : ServiceState :=
  (createPaymentIntent cexState0 42 100 fixtureCreateReq).2

/-- Id of the intent minted in the counterexample run. -/
def cexPid : String := "pi_0"

/-- Counterexample run, step 2: after `confirm-payment` at time 200. -/
def cexState2 : ServiceState := (confirmPayment cexState1 42 200 cexPid).2

/-- The status Stripe gives a fresh intent in the fixture runs. -/
def statusRequiresPaymentMethod : String := "requires_payment_method"

/-- The Stripe terminal success status checked by the handlers. -/
def statusSucceeded : String := "succeeded"

def okey1 : String := "o1"

def completedOrder : Order :=
  { orderId := okey1, userId := 7, total := 999, status := .completed,
    version := 3 }

def demoStore : List (String × Order) := [(okey1, completedOrder)]

def okey2 : String := "o2"

def createdOrder : Order :=
  { orderId := okey2, userId := 7, total := 999, status := .created,
    version := 0 }

def demoStore2 : List (String × Order) := [(okey2, createdOrder)]

/-- The order after a successful reserve transition from `createdOrder`. -/
def reservedOrder : Order :=
  { createdOrder with
      status := .reserved
      version := createdOrder.version + 1 }

def okey3 : String := "o3"

def extRef1 : String := "ext1"

def evtId1 : String := "evt1"

def evtAuthorized : String := "payment.authorized"

def attempt1 : PaymentAttempt :=
  { externalReference := extRef1, orderId := okey3, idempotencyKey := "K1",
    status := .pendingAttempt }

def authorizingOrder : Order :=
  { orderId := okey3, userId := 7, total := 999, status := .authorizing,
    version := 2 }

def whState0 : WebhookState :=
  { appliedEventIds := [], attempts := [(extRef1, attempt1)],
    orders := [(okey3, authorizingOrder)] }

def whState1 : WebhookState :=
  (handleEvent whState0 extRef1 evtAuthorized evtId1).2

/-! ## Theorems -/

/-- C1: a `create-payment-intent` request whose order already has a stored,
unexpired idempotency record returns exactly the stored result (same
`paymentIntentId`, `clientSecret` and `status`), and performs no
re-execution: the whole state — the Stripe call log and the cache included —
is unchanged, so no new authorization is created and no new record is
written. -/
theorem create_payment_intent_returns_stored_result
    (st : ServiceState) (userId now : Nat) (req : CreateIntentReq)
    (pd : PaymentIntentRecord)
    (hval : validateCreateIntent req = true)
    (hhit : cacheGet st.piCache req.orderId now = some pd) :
    createPaymentIntent st userId now req =
      (.ok pd.paymentIntentId pd.clientSecret pd.status, st) := by
  unfold createPaymentIntent
  simp [hval, hhit]

/-- Witness for C1 at a concrete cached state. -/
theorem create_payment_intent_returns_stored_result_witness :
    validateCreateIntent fixtureCreateReq = true ∧
    cacheGet fixtureStateCached.piCache fixtureCreateReq.orderId 200 =
      some fixtureRecord ∧
    createPaymentIntent fixtureStateCached 42 200 fixtureCreateReq =
      (.ok fixtureRecord.paymentIntentId fixtureRecord.clientSecret
        fixtureRecord.status, fixtureStateCached) :=
  ⟨by decide, by decide,
    create_payment_intent_returns_stored_result fixtureStateCached 42 200
      fixtureCreateReq fixtureRecord (by decide) (by decide)⟩

/-- C3: confirming a payment intent whose status is already `succeeded`
returns success with the existing status and message
`Payment already confirmed`, and leaves the state unchanged — in particular
the Stripe confirm-call log is untouched, so no second confirm is issued. -/
theorem confirm_payment_already_succeeded_no_reconfirm
    (st : ServiceState) (userId now : Nat) (pid : String) (pi : StripeIntent)
    (hpid : pid ≠ "")
    (hret : stripeRetrieve st.stripe pid = some pi)
    (hown : pi.metaUserId = toString userId)
    (hsucc : pi.status = "succeeded") :
    confirmPayment st userId now pid =
      (.ok pi.status msgAlreadyConfirmed, st) := by
  unfold confirmPayment
  simp [hpid, hret, hown, hsucc]

/-- Witness for C3 at a concrete succeeded intent. -/
theorem confirm_payment_already_succeeded_no_reconfirm_witness :
    stripeRetrieve stateWithSucceeded.stripe pidSucceeded =
      some intentSucceeded ∧
    intentSucceeded.status = "succeeded" ∧
    confirmPayment stateWithSucceeded 7 100 pidSucceeded =
      (.ok intentSucceeded.status msgAlreadyConfirmed, stateWithSucceeded) :=
  ⟨by decide, by decide,
    confirm_payment_already_succeeded_no_reconfirm stateWithSucceeded 7 100
      pidSucceeded intentSucceeded (by decide) (by decide) (by decide)
      (by decide)⟩

/-- C6: a request that fails input validation is answered with the 400
validation error and produces no side effect in any of the three
body-validated handlers: the state — Stripe calls and cache writes included —
is returned unchanged. -/
theorem validation_failure_no_side_effects
    (st1 st2 st3 : ServiceState) (u1 u2 u3 n1 n2 n3 : Nat)
    (req1 : CreateIntentReq) (pid2 : String) (req3 : RefundReq)
    (h1 : validateCreateIntent req1 = false)
    (h2 : pid2 = "")
    (h3 : validateRefund req3 = false) :
    createPaymentIntent st1 u1 n1 req1 = (.validationError, st1) ∧
    confirmPayment st2 u2 n2 pid2 = (.validationError, st2) ∧
    refund st3 u3 n3 req3 = (.validationError, st3) := by
  refine ⟨?_, ?_, ?_⟩
  · unfold createPaymentIntent
    simp [h1]
  · unfold confirmPayment
    simp [h2]
  · unfold refund
    simp [h3]

/-- Witness for C6 at concrete malformed requests (amount below 50, empty
payment-intent id). -/
theorem validation_failure_no_side_effects_witness :
    validateCreateIntent invalidCreateReq = false ∧
    validateRefund invalidRefundReq = false ∧
    createPaymentIntent cexState0 1 10 invalidCreateReq =
      (.validationError, cexState0) ∧
    confirmPayment fixtureStateCached 1 10 invalidRefundReq.paymentIntentId =
      (.validationError, fixtureStateCached) ∧
    refund stateWithPending 1 10 invalidRefundReq =
      (.validationError, stateWithPending) := by
  have h := validation_failure_no_side_effects cexState0 fixtureStateCached
    stateWithPending 1 1 1 10 10 10 invalidCreateReq
    invalidRefundReq.paymentIntentId invalidRefundReq (by decide) (by decide)
    (by decide)
  exact ⟨by decide, by decide, h.1, h.2.1, h.2.2⟩

/-- C8: a refund request for a payment intent whose status is not
`succeeded` is answered with the 400 `Payment is not eligible for refund`
error and changes nothing: no refund is created at Stripe and no refund
record is written. -/
theorem refund_ineligible_rejected_unchanged
    (st : ServiceState) (userId now : Nat) (req : RefundReq)
    (pi : StripeIntent)
    (hval : validateRefund req = true)
    (hret : stripeRetrieve st.stripe req.paymentIntentId = some pi)
    (hown : pi.metaUserId = toString userId)
    (hns : pi.status ≠ "succeeded") :
    refund st userId now req = (.notEligible, st) := by
  unfold refund
  simp [hval, hret, hown, hns]

/-- Witness for C8 at a concrete intent in status `requires_confirmation`. -/
theorem refund_ineligible_rejected_unchanged_witness :
    validateRefund refundReqPending = true ∧
    intentPending.status ≠ "succeeded" ∧
    refund stateWithPending 7 100 refundReqPending =
      (.notEligible, stateWithPending) :=
  ⟨by decide, by decide,
    refund_ineligible_rejected_unchanged stateWithPending 7 100
      refundReqPending intentPending (by decide) (by decide) (by decide)
      (by decide)⟩

/-- C10: the `create-payment-intent` response is the 400 validation error
exactly when the request misses the minimum-charge interface: an integer
amount of at least 50 cents, a currency among usd/eur/gbp, and a non-empty
order id.  Every request meeting the bounds proceeds past validation (the
response is the 200 shape on both the cached and the fresh path). -/
theorem create_intent_minimum_charge_boundary (st : ServiceState)
    (u now : Nat) (r : CreateIntentReq) :
    (createPaymentIntent st u now r).1 = .validationError ↔
      ¬((∃ n : Int, r.amount = .jint n ∧ 50 ≤ n) ∧
        (r.currency = "usd" ∨ r.currency = "eur" ∨ r.currency = "gbp") ∧
        r.orderId ≠ "") := by
  have hchar : validateCreateIntent r = true ↔
      ((∃ n : Int, r.amount = .jint n ∧ 50 ≤ n) ∧
       (r.currency = "usd" ∨ r.currency = "eur" ∨ r.currency = "gbp") ∧
       r.orderId ≠ "") := by
    unfold validateCreateIntent isIntMin
    cases hA : r.amount with
    | jint n =>
        simp [hA]
        tauto
    | jother => simp [hA]
  rw [← hchar]
  unfold createPaymentIntent
  by_cases hv : validateCreateIntent r = true
  · rw [hv]
    simp only [Bool.not_true, Bool.false_eq_true, if_false]
    cases hc : cacheGet st.piCache r.orderId now <;> simp [hv]
  · have hvf : validateCreateIntent r = false := by
      simpa using hv
    rw [hvf]
    simp [hvf]

/-- C9: on `confirm-payment`, `payment-status` and `refund`, a caller whose
`userId` differs from the one recorded in the intent's metadata gets the 403
`Access denied` and nothing else: the state is unchanged and no payment data
is returned.  The `hcons` hypothesis is the consistency the code itself
maintains — a cached `payment:{id}` record stores the same user as the
intent's metadata. -/
theorem ownership_enforced_forbidden
    (st : ServiceState) (userId now : Nat) (pid : String) (pi : StripeIntent)
    (req : RefundReq)
    (hpid : pid ≠ "")
    (hret : stripeRetrieve st.stripe pid = some pi)
    (hmeta : pi.metaUserId ≠ toString userId)
    (hcons : ∀ r2, cacheGet st.payCache pid now = some r2 →
      toString r2.userId = pi.metaUserId)
    (hreqpid : req.paymentIntentId = pid)
    (hreqval : validateRefund req = true) :
    confirmPayment st userId now pid = (.forbidden, st) ∧
    paymentStatus st userId now pid = (.forbidden, st) ∧
    refund st userId now req = (.forbidden, st) := by
  refine ⟨?_, ?_, ?_⟩
  · unfold confirmPayment
    simp [hpid, hret, hmeta]
  · unfold paymentStatus
    cases hc : cacheGet st.payCache pid now with
    | none =>
        unfold paymentStatusStripe
        simp [hret, hmeta]
    | some r2 =>
        have h3 := hcons r2 hc
        have hne : r2.userId ≠ userId := by
          intro he
          rw [he] at h3
          exact hmeta h3.symm
        unfold paymentStatusStripe
        simp [hne, hret, hmeta]
  · unfold refund
    simp [hreqval, hreqpid, hret, hmeta]

/-- Witness for C9: a caller with `userId = 8` against an intent whose
metadata records user 7. -/
theorem ownership_enforced_forbidden_witness :
    stripeRetrieve stateWithSucceeded.stripe pidSucceeded =
      some intentSucceeded ∧
    intentSucceeded.metaUserId ≠ toString 8 ∧
    confirmPayment stateWithSucceeded 8 100 pidSucceeded =
      (.forbidden, stateWithSucceeded) ∧
    paymentStatus stateWithSucceeded 8 100 pidSucceeded =
      (.forbidden, stateWithSucceeded) ∧
    refund stateWithSucceeded 8 100 refundReqSucceeded =
      (.forbidden, stateWithSucceeded) := by
  have h := ownership_enforced_forbidden stateWithSucceeded 8 100 pidSucceeded
    intentSucceeded refundReqSucceeded (by decide) (by decide) (by decide)
    (by intro r2 hr; simp [cacheGet, stateWithSucceeded] at hr)
    (by decide) (by decide)
  exact ⟨by decide, by decide, h.1, h.2.1, h.2.2⟩

/-- C2 counterexample: the stored idempotency record for order `order1` is
not immutable.  It is written at time 100 by `create-payment-intent` with
status `requires_payment_method`; after `confirm-payment` at time 200, a
lookup at time 300 — well before the record's expiry — returns a mutated
record with status `succeeded`.  Moreover the record's retention, as passed
to `setEx`, is 3600 seconds (one hour), not on the order of 24 hours. -/
theorem payment_intent_record_mutated_before_expiry :
    (cacheGet cexState1.piCache ordKey1 300).map PaymentIntentRecord.status =
      some statusRequiresPaymentMethod ∧
    (cacheGet cexState2.piCache ordKey1 300).map PaymentIntentRecord.status =
      some statusSucceeded ∧
    paymentIntentTtl = 3600 := by
  refine ⟨by decide, by decide, by decide⟩

/-- C2 amended: `payment_intent:{orderId}` records are written with a
3600-second TTL and are updated in place (status and `confirmedAt`) when the
payment is later confirmed; the `payment:{id}` record written at
confirmation has the 86400-second (24-hour) TTL; and a lookup before expiry
returns the currently stored result without re-executing the Stripe create
(the state is unchanged on the cache-hit path). -/
theorem payment_record_retention_and_update
    (st stc : ServiceState) (userId userIdC now nowC : Nat)
    (req : CreateIntentReq) (pd pdc : PaymentIntentRecord)
    (pid : String) (pi : StripeIntent)
    (hval : validateCreateIntent req = true)
    (hhit : cacheGet st.piCache req.orderId now = some pd)
    (hpid : pid ≠ "")
    (hret : stripeRetrieve stc.stripe pid = some pi)
    (hown : pi.metaUserId = toString userIdC)
    (hns : pi.status ≠ "succeeded")
    (hconf : stc.stripe.confirmStatus = "succeeded")
    (hpdc : cacheGet stc.piCache pi.metaOrderId nowC = some pdc) :
    paymentIntentTtl = 3600 ∧ paymentRecordTtl = 86400 ∧
    createPaymentIntent st userId now req =
      (.ok pd.paymentIntentId pd.clientSecret pd.status, st) ∧
    (confirmPayment stc userIdC nowC pid).2.piCache =
      cacheSet stc.piCache pi.metaOrderId
        { pdc with status := statusSucceeded, confirmedAt := some nowC }
        (nowC + paymentIntentTtl) ∧
    (confirmPayment stc userIdC nowC pid).2.payCache =
      cacheSet stc.payCache pi.id
        { paymentIntentId := pi.id, orderId := pi.metaOrderId,
          userId := userIdC, amount := pi.amount, currency := pi.currency,
          status := statusSucceeded, confirmedAt := nowC }
        (nowC + paymentRecordTtl) := by
  have hcp : confirmPayment stc userIdC nowC pid =
      (.ok statusSucceeded msgConfirmedOk,
        { stc with
            stripe :=
              { stc.stripe with
                  intents := (pid, { pi with status := statusSucceeded }) ::
                    stc.stripe.intents.filter (fun e => e.1 ≠ pid)
                  confirmCalls := pid :: stc.stripe.confirmCalls }
            piCache := cacheSet stc.piCache pi.metaOrderId
              { pdc with status := statusSucceeded, confirmedAt := some nowC }
              (nowC + paymentIntentTtl)
            payCache := cacheSet stc.payCache pi.id
              { paymentIntentId := pi.id, orderId := pi.metaOrderId,
                userId := userIdC, amount := pi.amount,
                currency := pi.currency, status := statusSucceeded,
                confirmedAt := nowC }
              (nowC + paymentRecordTtl) }) := by
    unfold confirmPayment stripeConfirm
    simp [hpid, hret, hown, hns, hconf, hpdc, statusSucceeded]
  refine ⟨rfl, rfl, ?_, ?_, ?_⟩
  · unfold createPaymentIntent
    simp [hval, hhit]
  · rw [hcp]
  · rw [hcp]

/-- Witness for the C2 amended theorem: the cache-hit path at
`fixtureStateCached` and the confirm-update path at `stateWithPending`. -/
theorem payment_record_retention_and_update_witness :
    validateCreateIntent fixtureCreateReq = true ∧
    stripeRetrieve stateWithPending.stripe pidPending =
      some intentPending ∧
    paymentIntentTtl = 3600 ∧ paymentRecordTtl = 86400 ∧
    createPaymentIntent fixtureStateCached 42 200 fixtureCreateReq =
      (.ok fixtureRecord.paymentIntentId fixtureRecord.clientSecret
        fixtureRecord.status, fixtureStateCached) ∧
    (confirmPayment stateWithPending 7 200 pidPending).2.piCache =
      cacheSet stateWithPending.piCache intentPending.metaOrderId
        { record8 with status := statusSucceeded, confirmedAt := some 200 }
        (200 + paymentIntentTtl) ∧
    (confirmPayment stateWithPending 7 200 pidPending).2.payCache =
      cacheSet stateWithPending.payCache intentPending.id
        { paymentIntentId := intentPending.id,
          orderId := intentPending.metaOrderId, userId := 7,
          amount := intentPending.amount, currency := intentPending.currency,
          status := statusSucceeded, confirmedAt := 200 }
        (200 + paymentRecordTtl) := by
  have h := payment_record_retention_and_update fixtureStateCached
    stateWithPending 42 7 200 200 fixtureCreateReq fixtureRecord record8
    pidPending intentPending (by decide) (by decide) (by decide) (by decide)
    (by decide) (by decide) (by decide) (by decide)
  exact ⟨by decide, by decide, h.1, h.2.1, h.2.2.1, h.2.2.2.1, h.2.2.2.2⟩

/-- Terminal statuses have no outgoing edge in the transition table. -/
theorem nextStatus_of_terminal (s : OrderStatus) (e : OrderEvent)
    (h : isTerminal s = true) : nextStatus s e = none := by
  cases s <;> cases e <;> simp_all [isTerminal, nextStatus]

/-- C5: terminal states are absorbing — for an order stored in `COMPLETED`,
`CANCELLED` or `FAILED`, a transition attempt at the current version is
rejected with `IllegalTransitionError`, and no attempt (at any expected
version) changes the stored state. -/
theorem terminal_states_absorbing
    (store : List (String × Order)) (orderId : String) (ev : OrderEvent)
    (o : Order) (v : Nat)
    (hfind : storeGet store orderId = some o)
    (hterm : isTerminal o.status = true) :
    transition store orderId ev o.version = (.illegalTransitionError, store) ∧
    (transition store orderId ev v).2 = store := by
  have hn := nextStatus_of_terminal o.status ev hterm
  constructor
  · unfold transition
    simp [hfind, hn]
  · unfold transition
    rcases eq_or_ne o.version v with hv | hv
    · simp [hfind, hn, hv]
    · simp [hfind, hv]

/-- Witness for C5 at a concrete completed order. -/
theorem terminal_states_absorbing_witness :
    storeGet demoStore okey1 = some completedOrder ∧
    isTerminal completedOrder.status = true ∧
    transition demoStore okey1 .completeOrder completedOrder.version =
      (.illegalTransitionError, demoStore) ∧
    (transition demoStore okey1 .completeOrder 7).2 = demoStore := by
  have h := terminal_states_absorbing demoStore okey1 .completeOrder
    completedOrder 7 (by decide) (by decide)
  exact ⟨by decide, by decide, h.1, h.2⟩

/-- Looking an order up in the store right after writing it returns the
written order. -/
theorem storeGet_storeSet_self (store : List (String × Order))
    (orderId : String) (o : Order) :
    storeGet (storeSet store orderId o) orderId = some o := by
  simp [storeGet, storeSet]

/-- C7: the `transition(orderId, event, expectedVersion)` contract — it
fails with `ConflictError` exactly when the persisted version differs from
`expectedVersion`, fails with `IllegalTransitionError` exactly when the
event is not valid from the current state (with the version check taking
precedence, as the contract lists it first), and on a valid event at the
current version it persists the new state, increments the version by one,
and returns the updated order together with the domain event. -/
theorem transition_contract_spec
    (store : List (String × Order)) (orderId : String) (event : OrderEvent)
    (expectedVersion : Nat) (o : Order)
    (hfind : storeGet store orderId = some o)
    (store2 : List (String × Order)) (orderId2 : String)
    (event2 : OrderEvent) (o2 : Order) (s2 : OrderStatus)
    (hfind2 : storeGet store2 orderId2 = some o2)
    (hvalid2 : nextStatus o2.status event2 = some s2) :
    ((transition store orderId event expectedVersion).1 = .conflictError ↔
      o.version ≠ expectedVersion) ∧
    ((transition store orderId event expectedVersion).1 =
        .illegalTransitionError ↔
      (o.version = expectedVersion ∧ nextStatus o.status event = none)) ∧
    transition store2 orderId2 event2 o2.version =
      (.success { o2 with status := s2, version := o2.version + 1 } event2,
        storeSet store2 orderId2
          { o2 with status := s2, version := o2.version + 1 }) ∧
    storeGet (transition store2 orderId2 event2 o2.version).2 orderId2 =
      some { o2 with status := s2, version := o2.version + 1 } := by
  have hsucc : transition store2 orderId2 event2 o2.version =
      (.success { o2 with status := s2, version := o2.version + 1 } event2,
        storeSet store2 orderId2
          { o2 with status := s2, version := o2.version + 1 }) := by
    unfold transition
    simp [hfind2, hvalid2]
  refine ⟨?_, ?_, hsucc, ?_⟩
  · unfold transition
    by_cases hv : o.version = expectedVersion
    · rw [hfind]
      cases hn : nextStatus o.status event <;> simp [hv, hn]
    · simp [hfind, hv]
  · unfold transition
    by_cases hv : o.version = expectedVersion
    · rw [hfind]
      cases hn : nextStatus o.status event <;> simp [hv, hn]
    · simp [hfind, hv]
  · rw [hsucc]
    exact storeGet_storeSet_self store2 orderId2
      { o2 with status := s2, version := o2.version + 1 }

/-- Witness for C7: a stale-version attempt on a stored order, and a valid
reserve transition from `CREATED`. -/
theorem transition_contract_spec_witness :
    storeGet demoStore okey1 = some completedOrder ∧
    storeGet demoStore2 okey2 = some createdOrder ∧
    nextStatus createdOrder.status .reserveStockOk = some .reserved ∧
    (((transition demoStore okey1 .completeOrder 5).1 = .conflictError) ↔
      completedOrder.version ≠ 5) ∧
    (((transition demoStore okey1 .completeOrder 5).1 =
        .illegalTransitionError) ↔
      (completedOrder.version = 5 ∧
        nextStatus completedOrder.status .completeOrder = none)) ∧
    transition demoStore2 okey2 .reserveStockOk createdOrder.version =
      (.success reservedOrder .reserveStockOk,
        storeSet demoStore2 okey2 reservedOrder) ∧
    storeGet (transition demoStore2 okey2 .reserveStockOk
        createdOrder.version).2 okey2 = some reservedOrder := by
  have h := transition_contract_spec demoStore okey1 .completeOrder 5
    completedOrder (by decide) demoStore2 okey2 .reserveStockOk createdOrder
    .reserved (by decide) (by decide)
  exact ⟨by decide, by decide, by decide, h.1, h.2.1, h.2.2.1, h.2.2.2⟩

/-- Looking the reference up right after writing the attempt returns the
written attempt. -/
theorem attemptsGet_set_self (l : List (String × PaymentAttempt))
    (ref : String) (a : PaymentAttempt) :
    attemptsGet (attemptsSet l ref a) ref = some a := by
  simp [attemptsGet, attemptsSet]

/-- C4: webhook application is idempotent — once a delivery with a given
`eventId` has been successfully applied, redelivering the same `eventId` is
answered as a duplicate and leaves the state unchanged, for any number of
replays. -/
theorem webhook_replay_is_noop (st st1 : WebhookState)
    (ref ty eid : String) (ev : OrderEvent) (n : Nat)
    (happly : handleEvent st ref ty eid = (.applied ev, st1)) :
    handleEvent st1 ref ty eid = (.duplicateEvent, st1) ∧
    replayEvent ref ty eid n st1 = st1 := by
  have hfix : handleEvent st1 ref ty eid = (.duplicateEvent, st1) := by
    unfold handleEvent at happly
    split at happly
    · simp at happly
    · split at happly
      · simp at happly
      · split at happly
        · simp at happly
        · split at happly
          · simp at happly
          · rw [Prod.mk.injEq] at happly
            obtain ⟨-, h2⟩ := happly
            subst h2
            unfold handleEvent
            simp [attemptsGet_set_self]
  refine ⟨hfix, ?_⟩
  induction n with
  | zero => rfl
  | succ m ih =>
      show replayEvent ref ty eid m (handleEvent st1 ref ty eid).2 = st1
      rw [hfix]
      exact ih

/-- Witness for C4: a pending attempt receives an authorized webhook once;
five replays of the same `eventId` change nothing. -/
theorem webhook_replay_is_noop_witness :
    handleEvent whState0 extRef1 evtAuthorized evtId1 =
      (.applied .authorizationOk, whState1) ∧
    handleEvent whState1 extRef1 evtAuthorized evtId1 =
      (.duplicateEvent, whState1) ∧
    replayEvent extRef1 evtAuthorized evtId1 5 whState1 = whState1 := by
  have h := webhook_replay_is_noop whState0 whState1 extRef1 evtAuthorized
    evtId1 .authorizationOk 5 (by decide)
  exact ⟨by decide, h.1, h.2⟩

end ElectroMart
